import Mathlib

/-!
Verification development for the AutoPlanningBackend authentication core
(`src/server/auth.rs`, `src/util/password.rs`, `src/model/user.rs`).

The Rust code is shallowly embedded: pure control flow is translated
function by function; the external crates (`jsonwebtoken`, `bcrypt`,
`serde`) are modelled as deterministic Lean functions that keep the
observable structure the code relies on (header/claims/signature of a
token, the modular-crypt format of a bcrypt hash string, the JSON value
boundary), while the cryptographic digests themselves are replaced by
concrete deterministic model digests.
-/

namespace APB

/-- Claims payload carried inside a token, mirroring `struct Claims`
in `src/server/auth.rs`: an `id`, a `name`, and an `exp` unix timestamp. -/
structure Claims where
  id : Int
  name : String
  exp : Int
deriving DecidableEq, Repr

/-- The error enum `AuthError` of `src/server/auth.rs`. -/
inductive AuthError where
  | WrongCredentials
  | MissingCredentials
  | TokenCreation
  | InvalidToken
  | MissingToken
deriving DecidableEq, Repr

/-- The `IntoResponse` impl for `AuthError`: HTTP status code and message. -/
def AuthError.intoResponse : AuthError → Nat × String
  | .WrongCredentials => (401, "Wrong credentials")
  | .MissingCredentials => (400, "Missing credentials")
  | .TokenCreation => (500, "Token creation error")
  | .InvalidToken => (400, "Invalid token")
  | .MissingToken => (400, "Missing token")

/-- The process-wide secret from the `KEYS` static in `src/server/auth.rs`. -/
def KEYS_secret : String := "Free as in Freedom"

/-- JWT signing algorithm tags relevant to the code (`Header::default()`
uses HS256, and verification is pinned to HS256). -/
inductive Alg where
  | HS256
  | other
deriving DecidableEq, Repr

/-- Model of the HMAC-SHA256 MAC used by the `jsonwebtoken` crate: an
abstract but concrete deterministic digest of the secret and the
serialized claims fields. -/
def macModel (secret : String) (c : Claims) : Nat :=
  ((secret.toList.map Char.toNat) ++
    (if c.id < 0 then 1 else 0) :: c.id.natAbs ::
    (c.name.toList.map Char.toNat) ++
    [(if c.exp < 0 then 1 else 0), c.exp.natAbs]).foldl
    (fun h x => (h * 131 + x + 1) % 1000000007) 7

/-- A structurally well-formed JWT: header algorithm, claims payload and
signature, the three dot-separated segments of the wire format. -/
structure Jwt where
  alg : Alg
  claims : Claims
  sig : Nat
deriving DecidableEq, Repr

/-- Model of `jsonwebtoken::encode(&Header::default(), &claims, key)`:
sign the claims with HS256 under the secret. -/
def encode (secret : String) (c : Claims) : Jwt :=
  { alg := Alg.HS256, claims := c, sig := macModel secret c }

/-- Errors of the modelled `jsonwebtoken::decode`. -/
inductive JwtError where
  | InvalidAlgorithm
  | InvalidSignature
  | ExpiredSignature
deriving DecidableEq, Repr

/-- Model of `jsonwebtoken::decode::<Claims>` with
`Validation::new(Algorithm::HS256)`: check the algorithm, then the
signature, then the registered `exp` claim against the current time with
the crate's default 60-second leeway. -/
def decode (secret : String) (now : Int) (t : Jwt) : Except JwtError Claims :=
  if t.alg ≠ Alg.HS256 then .error JwtError.InvalidAlgorithm
  else if t.sig ≠ macModel secret t.claims then .error JwtError.InvalidSignature
  else if t.claims.exp < now - 60 then .error JwtError.ExpiredSignature
  else .ok t.claims

/-- The bearer-token slot of a request: a syntactically valid JWT or a
string that fails structural parsing. -/
inductive TokenWire where
  | malformed
  | wellFormed (t : Jwt)
deriving DecidableEq, Repr

/-- The Authorization header state of an inbound request. -/
inductive AuthHeader where
  | noHeader
  | notBearerScheme (raw : String)
  | bearerPresent (w : TokenWire)
deriving DecidableEq, Repr

/-- The `FromRequestParts` impl for `Claims` in `src/server/auth.rs`:
extract the typed `Authorization: Bearer` header (any extraction failure
is mapped to `InvalidToken`), decode the token (any decode failure is
mapped to `InvalidToken`), then reject with `InvalidToken` when
`claims.exp <= now`. -/
def fromRequestParts (now : Int) (h : AuthHeader) : Except AuthError Claims :=
  match h with
  | .noHeader => .error AuthError.InvalidToken
  | .notBearerScheme _ => .error AuthError.InvalidToken
  | .bearerPresent .malformed => .error AuthError.InvalidToken
  | .bearerPresent (.wellFormed t) =>
    match decode KEYS_secret now t with
    | .error _ => .error AuthError.InvalidToken
    | .ok c => if c.exp ≤ now then .error AuthError.InvalidToken else .ok c

/-- Modelled from the spec: the Token Issuer's `issue(claims_payload, ttl)`
operation (spec section 4.3), which computes `exp = now + ttl` and signs
the payload with the process secret. The source inlines this in
`authorize` with a fixed ttl of 3600; a ttl-parameterized `issue` exists
only in the spec. -/
def issue (now : Int) (id : Int) (name : String) (ttl : Int) : Jwt :=
  encode KEYS_secret { id := id, name := name, exp := now + ttl }

/-- The bcrypt variant of the base64 alphabet used in modular crypt
format hash strings. -/
def bcryptAlphabet : List Char :=
  "./ABCDEFGHIJKLMNOPQRSTUVWXYZabcdefghijklmnopqrstuvwxyz0123456789".toList

/-- One character of bcrypt base64. -/
def b64Char (n : Nat) : Char := bcryptAlphabet.getD (n % 64) '.'

/-- bcrypt base64 encoding of a byte list (3 bytes to 4 characters, with
the usual truncated tail groups). -/
def b64EncodeBytes : List Nat → List Char
  | [] => []
  | [b1] => [b64Char (b1 / 4), b64Char ((b1 % 4) * 16)]
  | [b1, b2] =>
    [b64Char (b1 / 4), b64Char ((b1 % 4) * 16 + b2 / 16), b64Char ((b2 % 16) * 4)]
  | b1 :: b2 :: b3 :: rest =>
    b64Char (b1 / 4) :: b64Char ((b1 % 4) * 16 + b2 / 16) ::
      b64Char ((b2 % 16) * 4 + b3 / 64) :: b64Char (b3 % 64) :: b64EncodeBytes rest

/-- Value of one bcrypt base64 character. -/
def b64CharVal (c : Char) : Option Nat := bcryptAlphabet.indexOf? c

/-- bcrypt base64 decoding, inverse of `b64EncodeBytes` on 16-byte salts. -/
def b64DecodeChars : List Char → Option (List Nat)
  | [] => some []
  | [_] => none
  | [c1, c2] => do
    let v1 ← b64CharVal c1
    let v2 ← b64CharVal c2
    pure [v1 * 4 + v2 / 16]
  | [c1, c2, c3] => do
    let v1 ← b64CharVal c1
    let v2 ← b64CharVal c2
    let v3 ← b64CharVal c3
    pure [v1 * 4 + v2 / 16, (v2 % 16) * 16 + v3 / 4]
  | c1 :: c2 :: c3 :: c4 :: rest => do
    let v1 ← b64CharVal c1
    let v2 ← b64CharVal c2
    let v3 ← b64CharVal c3
    let v4 ← b64CharVal c4
    let tail ← b64DecodeChars rest
    pure ((v1 * 4 + v2 / 16) :: ((v2 % 16) * 16 + v3 / 4) :: ((v3 % 4) * 64 + v4) :: tail)

/-- Model of the 23-byte bcrypt digest as a deterministic function of
password, cost and salt: a rolling hash seeds a byte stream. The real
Blowfish-based digest is abstracted, its determinism and dependence on
all three inputs are kept. -/
def modelDigestBytes (password : String) (cost : Nat) (salt : List Nat) : List Nat :=
  let seed := ((password.toList.map Char.toNat) ++ cost :: salt).foldl
    (fun h x => (h * 257 + x + 1) % 2147483647) 1
  (List.range 23).map (fun i => (seed + (i + 1) * (seed % 251 + i)) % 256)

/-- Two-digit decimal rendering of the bcrypt cost, as the bcrypt crate
formats it. -/
def costChars (cost : Nat) : List Char :=
  [Char.ofNat (48 + cost / 10 % 10), Char.ofNat (48 + cost % 10)]

/-- Model of `bcrypt::hash_with_salt(password, cost, salt).to_string()`:
a modular crypt format string `$2b$cc$` followed by the 22-character
base64 salt and the 31-character base64 digest. -/
def bcryptHashWithSalt (password : String) (cost : Nat) (salt : List Nat) : String :=
  "$2b$" ++ String.mk (costChars cost) ++ "$"
    ++ String.mk (b64EncodeBytes salt)
    ++ String.mk (b64EncodeBytes (modelDigestBytes password cost salt))

/-- Errors of the modelled bcrypt primitive. -/
inductive BcryptError where
  | InvalidHash
deriving DecidableEq, Repr

/-- Parse a stored modular crypt format hash into cost, salt bytes and
digest characters; `none` on any malformed input. -/
def parseBcryptHash (s : String) : Option (Nat × List Nat × List Char) :=
  match s.toList with
  | '$' :: '2' :: v :: '$' :: c1 :: c2 :: '$' :: rest =>
    if (v = 'a' ∨ v = 'b' ∨ v = 'x' ∨ v = 'y') ∧
        c1.isDigit ∧ c2.isDigit ∧ rest.length = 53 then
      match b64DecodeChars (rest.take 22) with
      | some salt => some ((c1.toNat - 48) * 10 + (c2.toNat - 48), salt, rest.drop 22)
      | none => none
    else none
  | _ => none

/-- Model of `bcrypt::verify(password, stored)`: parse the self-describing
stored hash (error on a malformed hash), re-hash the candidate password
with the extracted cost and salt, and compare the digests. -/
def bcryptVerify (password : String) (stored : String) : Except BcryptError Bool :=
  match parseBcryptHash stored with
  | none => .error BcryptError.InvalidHash
  | some (cost, salt, digest) =>
    .ok (b64EncodeBytes (modelDigestBytes password cost salt) == digest)

/-- A row of the `user` table as `authorize` reads it: `id`, `name`,
`password_hash`. -/
structure UserRow where
  id : Int
  name : String
  password_hash : String
deriving DecidableEq, Repr

/-- The external credential store: the two lookups `authorize` can issue
(`SELECT ... WHERE id=?` and `SELECT ... WHERE name=?`), `none` when
`fetch_one` finds no row or fails. -/
structure Db where
  byId : Int → Option UserRow
  byName : String → Option UserRow

/-- The login request body `AuthPayload` of `src/server/auth.rs`. -/
structure AuthPayload where
  id : Option Int
  name : Option String
  password : String
deriving DecidableEq, Repr

/-- The success response body `AuthBody`. -/
structure AuthBody where
  access_token : Jwt
  token_type : String
deriving DecidableEq, Repr

/-- `AuthBody::new`: wraps a token with `token_type` `"Bearer"`. -/
def AuthBody.new (t : Jwt) : AuthBody :=
  { access_token := t, token_type := "Bearer" }

/-- The query selection of `authorize`: after the empty-password guard,
an `id` identifier is matched first, then a `name` identifier; with
neither present there is no query. The outer `Option` is absence of a
query, the inner `Option` is the `fetch_one` outcome. -/
def lookupQuery (db : Db) (p : AuthPayload) : Option (Option UserRow) :=
  match p.id with
  | some i => some (db.byId i)
  | none =>
    match p.name with
    | some n => some (db.byName n)
    | none => none

/-- The `authorize` handler of `src/server/auth.rs`: reject an empty
password with `MissingCredentials` before anything else; reject with
`MissingToken` when neither identifier is present; map a failed
`fetch_one` to `InvalidToken`; map a bcrypt verify error or a `false`
verify to `WrongCredentials`; on success issue a token with
`exp = now + 3600` and return it as an `AuthBody`. -/
def authorize (db : Db) (now : Int) (p : AuthPayload) : Except AuthError AuthBody :=
  if p.password.isEmpty then .error AuthError.MissingCredentials
  else
    match lookupQuery db p with
    | none => .error AuthError.MissingToken
    | some none => .error AuthError.InvalidToken
    | some (some row) =>
      match bcryptVerify p.password row.password_hash with
      | .error _ => .error AuthError.WrongCredentials
      | .ok false => .error AuthError.WrongCredentials
      | .ok true =>
        let exp := now + 3600
        .ok (AuthBody.new (encode KEYS_secret { id := row.id, name := row.name, exp := exp }))

/-- A password-properties policy, the value-level content of the Rust
marker traits `PasswordWithSalt` in `src/util/password.rs`: a cost and a
16-byte fixed salt. The Rust marker type parameter carries no data, so a
policy value models it. -/
structure PasswordProperties where
  cost : Nat
  salt : List Nat
deriving DecidableEq, Repr

/-- `UserPasswordProperties` of `src/model/user.rs`: cost 12 and the
fixed 16-byte salt of pi digits. -/
def UserPasswordProperties : PasswordProperties :=
  { cost := 12, salt := [3, 1, 4, 1, 5, 9, 2, 6, 5, 3, 5, 8, 9, 7, 9, 3] }

/-- The typed password wrapper `StringPassword<P>` of
`src/util/password.rs`: a plain string value (the `PhantomData` marker
carries no runtime data). -/
structure StringPassword where
  value : String
deriving DecidableEq, Repr

/-- `StringPassword::new`. -/
def StringPassword.new (value : String) : StringPassword :=
  { value := value }

/-- `StringPassword::hash_with_salt` for a policy `P`:
`bcrypt::hash_with_salt(&self.value, P::COST, P::SALT).map(to_string)`.
The modelled bcrypt call cannot fail, so the `Result` is collapsed. -/
def StringPassword.hash_with_salt (P : PasswordProperties) (sp : StringPassword) : String :=
  bcryptHashWithSalt sp.value P.cost P.salt

/-- JSON values at the serde boundary, as far as the password wrapper
can observe them. -/
inductive Json where
  | str (s : String)
  | num (n : Int)
  | boolean (b : Bool)
  | null
  | arr (xs : List Json)
deriving Repr

/-- The `Serialize` impl for `StringPassword<P>`:
`serializer.serialize_str(&self.value)`. -/
def StringPassword.serializeJson (sp : StringPassword) : Json :=
  Json.str sp.value

/-- The `Deserialize` impl for `StringPassword<P>`: the visitor accepts
any string (`visit_str`/`visit_string`) and wraps it with
`StringPassword::new`; any non-string JSON value is a type error. -/
def StringPassword.deserializeJson : Json → Except String StringPassword
  | Json.str s => .ok (StringPassword.new s)
  | _ => .error "a string"

/-! Helper lemmas shared by the claim theorems. -/

/-- A successful `decode` returns exactly the token's claims. -/
theorem decode_ok_claims {s : String} {now : Int} {t : Jwt} {c : Claims}
    (h : decode s now t = Except.ok c) : c = t.claims := by
  unfold decode at h
  split at h
  · cases h
  · split at h
    · cases h
    · split at h
      · cases h
      · injection h with h2
        exact h2.symm

/-- The extractor rejects any well-formed bearer token whose `exp` is at
or before the current time. -/
theorem fromRequestParts_expired_reject (t : Jwt) (now : Int)
    (h : t.claims.exp ≤ now) :
    fromRequestParts now (AuthHeader.bearerPresent (TokenWire.wellFormed t)) =
      Except.error AuthError.InvalidToken := by
  cases hd : decode KEYS_secret now t with
  | error e => simp [fromRequestParts, hd]
  | ok c =>
    have hc := decode_ok_claims hd
    subst hc
    simp [fromRequestParts, hd, h]

/-- Decoding an encoded token under the same secret succeeds when the
expiry is within the crate's leeway window. -/
theorem decode_encode (s : String) (now : Int) (c : Claims)
    (h : now - 60 ≤ c.exp) :
    decode s now (encode s c) = Except.ok c := by
  have h1 : ¬ ((encode s c).alg ≠ Alg.HS256) := by simp [encode]
  have h2 : ¬ ((encode s c).sig ≠ macModel s (encode s c).claims) := by simp [encode]
  have h3 : ¬ ((encode s c).claims.exp < now - 60) := by simp only [encode]; omega
  unfold decode
  rw [if_neg h1, if_neg h2, if_neg h3]
  simp [encode]

/-- C1: every well-formed bearer token whose claims carry `exp` less
than or equal to the verifier's current unix time is rejected by the
`Claims` extractor with `InvalidToken`, with no clock-skew leeway and
regardless of signature validity; in particular a token issued with
`ttl = -1` always fails verification at any time at or after issuance. -/
theorem claims_extractor_rejects_expired :
    (∀ (t : Jwt) (now : Int), t.claims.exp ≤ now →
      fromRequestParts now (AuthHeader.bearerPresent (TokenWire.wellFormed t)) =
        Except.error AuthError.InvalidToken) ∧
    (∀ (i t0 now : Int) (nm : String), t0 ≤ now →
      fromRequestParts now
          (AuthHeader.bearerPresent (TokenWire.wellFormed (issue t0 i nm (-1)))) =
        Except.error AuthError.InvalidToken) := by
  constructor
  · exact fromRequestParts_expired_reject
  · intro i t0 now nm h
    apply fromRequestParts_expired_reject
    show t0 + (-1) ≤ now
    omega

/-- Witness for C1 at a concrete expired token. -/
theorem claims_extractor_rejects_expired_witness :
    fromRequestParts 100
        (AuthHeader.bearerPresent (TokenWire.wellFormed (issue 100 1 "alice" (-1)))) =
      Except.error AuthError.InvalidToken :=
  claims_extractor_rejects_expired.2 1 100 100 "alice" (by decide)

/-- C2: for every claims payload and every positive ttl, verifying the
issued token at a current time within the validity window returns claims
equal to the original id, name and the exp computed at issuance. -/
theorem issue_verify_roundtrip (i : Int) (nm : String) (ttl t0 now : Int)
    (h1 : 0 < ttl) (h2 : t0 ≤ now) (h3 : now < t0 + ttl) :
    fromRequestParts now
        (AuthHeader.bearerPresent (TokenWire.wellFormed (issue t0 i nm ttl))) =
      Except.ok { id := i, name := nm, exp := t0 + ttl } := by
  have hdec : decode KEYS_secret now (encode KEYS_secret { id := i, name := nm, exp := t0 + ttl }) =
      Except.ok { id := i, name := nm, exp := t0 + ttl } :=
    decode_encode KEYS_secret now _ (by show now - 60 ≤ t0 + ttl; omega)
  simp only [issue, fromRequestParts, hdec]
  rw [if_neg]
  show ¬ (t0 + ttl ≤ now)
  omega

/-- Witness for C2 at a concrete issuance. -/
theorem issue_verify_roundtrip_witness :
    fromRequestParts 1500
        (AuthHeader.bearerPresent (TokenWire.wellFormed (issue 1000 1 "alice" 3600))) =
      Except.ok { id := 1, name := "alice", exp := 4600 } := by
  have h := issue_verify_roundtrip 1 "alice" 3600 1000 1500
    (by decide) (by decide) (by decide)
  simpa using h

/-- C4 counterexample: a request with no Authorization header at all is
rejected with `InvalidToken`, not with `MissingToken` as the claim
states — the extractor maps every header-extraction failure to
`InvalidToken`. -/
theorem no_header_rejected_invalid_not_missing :
    fromRequestParts 0 AuthHeader.noHeader = Except.error AuthError.InvalidToken ∧
    fromRequestParts 0 AuthHeader.noHeader ≠ Except.error AuthError.MissingToken := by
  constructor
  · rfl
  · intro h
    simp [fromRequestParts] at h

/-- C4 amended: a request with no Authorization header and a request
whose Authorization header uses a non-Bearer scheme are both rejected by
the extractor with `InvalidToken`. -/
theorem header_failures_rejected_invalid_token :
    (∀ now : Int,
      fromRequestParts now AuthHeader.noHeader = Except.error AuthError.InvalidToken) ∧
    (∀ (now : Int) (raw : String),
      fromRequestParts now (AuthHeader.notBearerScheme raw) =
        Except.error AuthError.InvalidToken) :=
  ⟨fun _ => rfl, fun _ _ => rfl⟩

/-- C5: a login payload whose password is the empty string is rejected
with `MissingCredentials` for every credential store, every time, and
every combination of identifiers, so before any lookup can matter. -/
theorem empty_password_missing_credentials (db : Db) (now : Int) (p : AuthPayload)
    (h : p.password = "") :
    authorize db now p = Except.error AuthError.MissingCredentials := by
  have hb : p.password.isEmpty = true := by rw [h]; rfl
  unfold authorize
  rw [if_pos hb]

/-- Witness for C5. -/
theorem empty_password_missing_credentials_witness :
    authorize { byId := fun _ => none, byName := fun _ => none } 0
        { id := some 1, name := some "alice", password := "" } =
      Except.error AuthError.MissingCredentials :=
  empty_password_missing_credentials _ 0 _ rfl

/-- C6: a login with a non-empty password and a present identifier whose
credential lookup fails (no row) is rejected with `InvalidToken`, the
same error class as a token-verification failure. -/
theorem lookup_failure_invalid_token (db : Db) (now : Int) (p : AuthPayload)
    (h1 : p.password.isEmpty = false) (h2 : lookupQuery db p = some none) :
    authorize db now p = Except.error AuthError.InvalidToken := by
  unfold authorize
  rw [if_neg (by simp [h1]), h2]

/-- Witness for C6 on an empty store. -/
theorem lookup_failure_invalid_token_witness :
    authorize { byId := fun _ => none, byName := fun _ => none } 0
        { id := some 1, name := none, password := "pw" } =
      Except.error AuthError.InvalidToken :=
  lookup_failure_invalid_token _ 0 _ rfl rfl

/-- A concrete user row whose stored hash was produced by the fixed-salt
hasher, used as a witness store. -/
def aliceRow : UserRow :=
  { id := 1, name := "alice",
    password_hash := bcryptHashWithSalt "s3cret" 12 UserPasswordProperties.salt }

/-- A witness credential store holding only `aliceRow`. -/
def aliceDb : Db :=
  { byId := fun i => if i = 1 then some aliceRow else none,
    byName := fun n => if n = "alice" then some aliceRow else none }

/-- A witness credential store whose stored hash is not a valid modular
crypt format string, so the verification primitive itself errors. -/
def badHashDb : Db :=
  { byId := fun i =>
      if i = 1 then some { id := 1, name := "alice", password_hash := "not-a-bcrypt-hash" }
      else none,
    byName := fun _ => none }

/-- C7: every successful login issues a token whose `exp` is the current
unix time plus 3600 seconds, returned in a body whose `token_type` is
exactly the string Bearer. -/
theorem successful_login_token (db : Db) (now : Int) (p : AuthPayload) (row : UserRow)
    (h1 : p.password.isEmpty = false)
    (h2 : lookupQuery db p = some (some row))
    (h3 : bcryptVerify p.password row.password_hash = Except.ok true) :
    authorize db now p =
      Except.ok (AuthBody.new
        (encode KEYS_secret { id := row.id, name := row.name, exp := now + 3600 })) ∧
    (AuthBody.new
        (encode KEYS_secret { id := row.id, name := row.name, exp := now + 3600 })).token_type =
      "Bearer" ∧
    (encode KEYS_secret { id := row.id, name := row.name, exp := now + 3600 }).claims.exp =
      now + 3600 := by
  refine ⟨?_, rfl, rfl⟩
  unfold authorize
  rw [if_neg (by simp [h1]), h2]
  simp only [h3]

/-- Witness for C7: logging in as alice with the right password. -/
theorem successful_login_token_witness :
    authorize aliceDb 0 { id := some 1, name := none, password := "s3cret" } =
      Except.ok (AuthBody.new
        (encode KEYS_secret { id := 1, name := "alice", exp := 3600 })) := by
  have h := successful_login_token aliceDb 0
    { id := some 1, name := none, password := "s3cret" } aliceRow rfl rfl rfl
  simpa [aliceRow] using h.1

/-- C3 counterexample: with a malformed stored hash the verification
primitive itself errors, yet `authorize` surfaces `WrongCredentials`,
whose response status is 401 — a caller-fault class, not an internal
server error. -/
theorem hash_fault_surfaced_as_wrong_credentials_cex :
    bcryptVerify "pw" "not-a-bcrypt-hash" = Except.error BcryptError.InvalidHash ∧
    authorize badHashDb 0 { id := some 1, name := none, password := "pw" } =
      Except.error AuthError.WrongCredentials ∧
    (AuthError.WrongCredentials.intoResponse).1 = 401 :=
  ⟨rfl, rfl, rfl⟩

/-- C3 amended: a hashing-layer fault during login (the bcrypt verify
primitive returns an error on the stored hash) is surfaced to the caller
as `WrongCredentials` with status 401, the same caller-fault class as a
clean password mismatch, not as a server fault. -/
theorem hash_fault_surfaced_as_wrong_credentials (db : Db) (now : Int)
    (p : AuthPayload) (row : UserRow) (e : BcryptError)
    (h1 : p.password.isEmpty = false)
    (h2 : lookupQuery db p = some (some row))
    (h3 : bcryptVerify p.password row.password_hash = Except.error e) :
    authorize db now p = Except.error AuthError.WrongCredentials ∧
    (AuthError.WrongCredentials.intoResponse).1 = 401 := by
  refine ⟨?_, rfl⟩
  unfold authorize
  rw [if_neg (by simp [h1]), h2]
  simp only [h3]

/-- Witness for the amended C3 on the malformed-hash store. -/
theorem hash_fault_surfaced_as_wrong_credentials_witness :
    authorize badHashDb 0 { id := some 1, name := none, password := "pw" } =
      Except.error AuthError.WrongCredentials ∧
    (AuthError.WrongCredentials.intoResponse).1 = 401 :=
  hash_fault_surfaced_as_wrong_credentials badHashDb 0
    { id := some 1, name := none, password := "pw" }
    { id := 1, name := "alice", password_hash := "not-a-bcrypt-hash" }
    BcryptError.InvalidHash rfl rfl rfl

/-- C8: the fixed-salt hash is a deterministic function of the password
value, the cost and the salt: any two wrapped passwords with the same
underlying string hash to identical hash strings under the same policy. -/
theorem hash_with_salt_deterministic (P : PasswordProperties)
    (a b : StringPassword) (h : a.value = b.value) :
    StringPassword.hash_with_salt P a = StringPassword.hash_with_salt P b := by
  unfold StringPassword.hash_with_salt
  rw [h]

/-- Witness for C8: two calls on the same password under the user
policy agree. -/
theorem hash_with_salt_deterministic_witness :
    StringPassword.hash_with_salt UserPasswordProperties (StringPassword.new "s3cret") =
      StringPassword.hash_with_salt UserPasswordProperties (StringPassword.new "s3cret") :=
  hash_with_salt_deterministic UserPasswordProperties
    (StringPassword.new "s3cret") (StringPassword.new "s3cret") rfl

/-- C9: when both identifiers are present, `authorize` looks up by id
only; the outcome equals that of the same payload with the name absent. -/
theorem both_identifiers_uses_id_only (db : Db) (now : Int) (i : Int)
    (n : String) (pw : String) (h : pw.isEmpty = false) :
    authorize db now { id := some i, name := some n, password := pw } =
      authorize db now { id := some i, name := none, password := pw } := rfl

/-- Witness for C9 on the alice store. -/
theorem both_identifiers_uses_id_only_witness :
    authorize aliceDb 0 { id := some 1, name := some "bob", password := "s3cret" } =
      authorize aliceDb 0 { id := some 1, name := none, password := "s3cret" } :=
  both_identifiers_uses_id_only aliceDb 0 1 "bob" "s3cret" rfl

/-- C10: deserializing any JSON string into the typed password wrapper
succeeds with exactly that string, and serializing the result yields the
same JSON string back: the wrapper never alters the password text at the
JSON boundary. -/
theorem password_json_roundtrip (s : String) :
    StringPassword.deserializeJson (Json.str s) = Except.ok (StringPassword.new s) ∧
    StringPassword.serializeJson (StringPassword.new s) = Json.str s :=
  ⟨rfl, rfl⟩

end APB
